import Mathlib

set_option autoImplicit false

namespace SqliteVector

/-!
A shallow embedding of the sqlite-vector virtual-table adapter
(src/virtual_table.cpp and src/virtual_table.h).

Machine integers are modelled as `Int` or `Nat` with explicit bounds where
they matter.  Host return codes are `Int` (`SQLITE_OK = 0`,
`SQLITE_ERROR = 1`).  C++ exceptions that escape a hook are modelled by the
`Except.error` constructor of the hook result type; normal returns
(including error returns that set the vtab error message) are `Except.ok`.
Float distances are never inspected by the adapter code under study, so the
distance type is an opaque type parameter `D`.
-/

/-- Host return code SQLITE_OK. -/
def SQLITE_OK : Int := 0

/-- Host return code SQLITE_ERROR. -/
def SQLITE_ERROR : Int := 1

/-- Host constant SQLITE_INDEX_CONSTRAINT_FUNCTION. -/
def SQLITE_INDEX_CONSTRAINT_FUNCTION : Int := 150

/-- enum ColumnIndexInTable: kColumnIndexVector = 0. -/
def kColumnIndexVector : Int := 0

/-- enum ColumnIndexInTable: kColumnIndexDistance = 1. -/
def kColumnIndexDistance : Int := 1

/-- enum IndexConstraintUsage: kVector = 1. -/
def kVector : Int := 1

/-- enum IndexConstraintUsage: kRowid = 2. -/
def kRowid : Int := 2

/-- enum FunctionConstraint: kFunctionConstraintVectorSearchKnn. -/
def kFunctionConstraintVectorSearchKnn : Int := SQLITE_INDEX_CONSTRAINT_FUNCTION

/-- The pointer-type discriminator string kKnnParamType. -/
def kKnnParamType : String := "vector_search_knn_param"

/-- std::numeric_limits of int64_t, max: 2^63 - 1. -/
def int64Max : Int := 9223372036854775807

/-- std::numeric_limits of int64_t, min: -2^63. -/
def int64Min : Int := -9223372036854775808

/-- Maximum of hnswlib::labeltype (size_t, 64-bit on the platforms the code
targets, see the comment above the range check in VirtualTable::Update):
2^64 - 1. -/
def labelTypeMax : Int := 18446744073709551615

/-- Modelled from the spec: the Vector value type (src/vector.cpp is not
under src/).  A vector of 32-bit IEEE-754 floats is represented by its raw
blob bytes; the spec fixes the blob encoding as the contiguous bytes of the
float array, 4 bytes per component. -/
structure Vector where
  bytes : List UInt8
deriving Repr, DecidableEq

/-- Dimension of a vector: number of 4-byte components. -/
def Vector.dim (v : Vector) : Nat := v.bytes.length / 4

/-- Modelled from the spec: the DecodeError message produced by
Vector::FromBlob on a malformed blob. -/
def vectorDecodeErrorMsg : String := "blob length must be a positive multiple of 4"

/-- Modelled from the spec: Vector::FromBlob succeeds iff
len(bytes) > 0 and len(bytes) mod 4 = 0, yielding a vector of dimension
len(bytes)/4. -/
def Vector.fromBlob (bytes : List UInt8) : Except String Vector :=
  if bytes.length > 0 ∧ bytes.length % 4 = 0 then .ok ⟨bytes⟩
  else .error vectorDecodeErrorMsg

/-- Modelled from the spec: Vector::ToBlob, the bit-exact inverse of
fromBlob. -/
def Vector.toBlob (v : Vector) : List UInt8 := v.bytes

/-- struct KnnParam: the (query_vector, k) tuple passed through the opaque
pointer value.  k is uint32_t, modelled as Nat. -/
structure KnnParam where
  query_vector : Vector
  k : Nat
deriving Repr, DecidableEq

/-- A host sqlite3_value.  A pointer value carries a tag and the KnnParam
payload (sqlite3_result_pointer never stores a null payload). -/
inductive SqliteValue where
  | null
  | integer (i : Int)
  | real
  | text (s : String)
  | blob (bytes : List UInt8)
  | pointer (tag : String) (param : KnnParam)
deriving Repr, DecidableEq

/-- Host value type codes as returned by sqlite3_value_type. -/
inductive SqlType where
  | null
  | integer
  | real
  | text
  | blob
deriving Repr, DecidableEq

/-- sqlite3_value_type.  A pointer value has type NULL in sqlite3. -/
def SqliteValue.valueType : SqliteValue → SqlType
  | .null => .null
  | .integer _ => .integer
  | .real => .real
  | .text _ => .text
  | .blob _ => .blob
  | .pointer _ _ => .null

/-- sqlite3_value_int64.  The adapter only calls it on integer values; the
coercions sqlite3 applies to other types are modelled as 0. -/
def SqliteValue.valueInt64 : SqliteValue → Int
  | .integer i => i
  | _ => 0

/-- sqlite3_value_blob together with sqlite3_value_bytes.  The adapter only
calls it after checking the value type is BLOB. -/
def SqliteValue.valueBlob : SqliteValue → List UInt8
  | .blob bs => bs
  | _ => []

/-- sqlite3_value_pointer: yields the payload iff the value is a pointer
value whose tag equals the requested tag, otherwise null. -/
def SqliteValue.valuePointer (v : SqliteValue) (tag : String) : Option KnnParam :=
  match v with
  | .pointer t p => if t = tag then some p else none
  | _ => none

/-- argv[i]; out-of-bounds access is modelled as NULL (the host always
passes well-formed argument arrays). -/
def getArg (argv : List SqliteValue) (i : Nat) : SqliteValue := argv.getD i .null

/-- The VirtualTable state: declared dimension, the normalize flag of the
vector space, the index capacity max_elements, the ANN index contents
(label, stored vector), the known-row set rowids_, and the owned error
message zErrMsg. -/
structure VTab where
  dimension : Nat
  normalize : Bool
  maxElements : Nat
  index : List (Nat × Vector)
  rowids : List Int
  zErrMsg : Option String
deriving Repr, DecidableEq

/-- SetZErrMsg: frees any previous message and stores the new one. -/
def setZErrMsg (vtab : VTab) (msg : String) : VTab := { vtab with zErrMsg := some msg }

/-- The message of the exception hnswlib throws when the index is full. -/
def capacityErrorMsg : String := "The number of elements exceeds the specified limit"

/-- Modelled from the spec: hnswlib HierarchicalNSW::addPoint (the ANN
index is an external collaborator, not under src/).  Per the spec it fails
if the label collides with an existing label or if the size would exceed
max_elements; in the C++ library the failure is a thrown exception,
modelled as Except.error. -/
def indexAddPoint (maxElements : Nat) (index : List (Nat × Vector)) (label : Nat)
    (v : Vector) : Except String (List (Nat × Vector)) :=
  if index.any (fun e => e.fst = label) then
    .error "label already exists"
  else if index.length + 1 > maxElements then
    .error capacityErrorMsg
  else
    .ok (index ++ [(label, v)])

/-- std::set insert on the known-row set rowids_. -/
def setInsert (s : List Int) (r : Int) : List Int := if r ∈ s then s else s ++ [r]

/-- static_cast of a rowid to hnswlib::labeltype, applied by Update only
after the bounds check has ensured the rowid is non-negative. -/
def labelOfRowid (r : Int) : Nat := r.toNat

/-- The rowid range check in Update: raw_rowid greater than
std::numeric_limits of Cursor::Rowid (int64_t), max, or negative. -/
def rowidOutOfRange (r : Int) : Bool := r > int64Max || r < 0

/-- The error message of the rowid range check in Update. -/
def rowidOutOfRangeMsg (r : Int) : String := "rowid " ++ toString r ++ " out of range"

/-- The dimension-mismatch message of Update. -/
def updateDimMismatchMsg (vdim tdim : Nat) : String :=
  "Dimension mismatch: vector has dimension " ++ toString vdim ++
    ", but the table has dimension " ++ toString tdim

/-- The result of a normal return from VirtualTable::Update: the new vtab
state, the out-parameter pRowid (some r iff the hook wrote r into it), and
the return code. -/
structure UpdateOut where
  vtab : VTab
  pRowid : Option Int
  rc : Int
deriving Repr, DecidableEq

/-- VirtualTable::Update, translated from src/virtual_table.cpp.  The call
to addPoint is not wrapped in a try/catch, so an exception thrown by the
index propagates out of Update (the Except.error case).  normalizeFn
abstracts Vector::Normalize (float arithmetic). -/
def VirtualTable.Update (normalizeFn : Vector → Vector) (vtab : VTab)
    (argv : List SqliteValue) : Except String UpdateOut :=
  if argv.length > 1 ∧ (getArg argv 0).valueType = SqlType.null then
    if (getArg argv 1).valueType = SqlType.null then
      .ok ⟨setZErrMsg vtab "rowid must be specified during insertion", none, SQLITE_ERROR⟩
    else
      let raw_rowid := (getArg argv 1).valueInt64
      if rowidOutOfRange raw_rowid then
        .ok ⟨setZErrMsg vtab (rowidOutOfRangeMsg raw_rowid), none, SQLITE_ERROR⟩
      else
        let rowid := raw_rowid
        let written := some rowid
        if (getArg argv 2).valueType ≠ SqlType.blob then
          .ok ⟨setZErrMsg vtab "vector must be of type Blob", written, SQLITE_ERROR⟩
        else
          match Vector.fromBlob (getArg argv 2).valueBlob with
          | .ok vec =>
            if vec.dim ≠ vtab.dimension then
              .ok ⟨setZErrMsg vtab (updateDimMismatchMsg vec.dim vtab.dimension),
                   written, SQLITE_ERROR⟩
            else
              match indexAddPoint vtab.maxElements vtab.index (labelOfRowid rowid)
                  (if vtab.normalize then normalizeFn vec else vec) with
              | .ok idx =>
                .ok ⟨{ vtab with index := idx, rowids := setInsert vtab.rowids rowid },
                     written, SQLITE_OK⟩
              | .error e => .error e
          | .error st =>
            .ok ⟨setZErrMsg vtab ("Failed to perform insertion due to: " ++ st),
                 written, SQLITE_ERROR⟩
  else
    .ok ⟨setZErrMsg vtab "Operation not supported for now", none, SQLITE_ERROR⟩

/-- The per-query cursor state: the (distance, rowid) result sequence, the
current position (the C++ iterator current_row, as an index; position =
length is the end iterator), and the stored query vector.  D is the opaque
distance type (float in C++). -/
structure Cursor (D : Type) where
  result : List (D × Int)
  current_row : Nat
  query_vector : Vector

/-- A freshly opened cursor: empty result, iterator at cend, default
query vector. -/
def Cursor.fresh (D : Type) : Cursor D := ⟨[], 0, ⟨[]⟩⟩

/-- The result of VirtualTable::Filter: the new cursor, the new vtab state
(Filter writes only zErrMsg), and the return code. -/
structure FilterOut (D : Type) where
  cursor : Cursor D
  vtab : VTab
  rc : Int

/-- The message Filter sets when the KNN parameter pointer is absent or
carries the wrong tag. -/
def knnParamMismatchMsg : String :=
  "knn_param() should be used for the 2nd param of knn_search"

/-- The dimension-mismatch message of Filter. -/
def filterDimMismatchMsg (qdim tdim : Nat) : String :=
  "Dimension mismatch: query vector has dimension " ++ toString qdim ++
    ", but the table has dimension " ++ toString tdim

/-- The message Filter sets for an unrecognized idxNum. -/
def invalidIdxNumMsg (idxNum : Int) : String := "Invalid index number: " ++ toString idxNum

/-- VirtualTable::Filter, translated from src/virtual_table.cpp.  searchFn
abstracts index_.searchKnnCloserFirst and normalizeFn abstracts
Vector::Normalize. -/
def VirtualTable.Filter {D : Type} (searchFn : Vector → Nat → List (D × Int))
    (normalizeFn : Vector → Vector) (vtab : VTab) (cursor : Cursor D)
    (idxNum : Int) (argv : List SqliteValue) : FilterOut D :=
  if idxNum = kVector then
    match (getArg argv 0).valuePointer kKnnParamType with
    | none => ⟨cursor, setZErrMsg vtab knnParamMismatchMsg, SQLITE_ERROR⟩
    | some param =>
      if param.query_vector.dim ≠ vtab.dimension then
        ⟨cursor,
         setZErrMsg vtab (filterDimMismatchMsg param.query_vector.dim vtab.dimension),
         SQLITE_ERROR⟩
      else
        let q := if vtab.normalize then normalizeFn param.query_vector
                 else param.query_vector
        ⟨⟨searchFn q param.k, 0, q⟩, vtab, SQLITE_OK⟩
  else
    ⟨cursor, setZErrMsg vtab (invalidIdxNumMsg idxNum), SQLITE_ERROR⟩

/-- One entry of sqlite3_index_info.aConstraint. -/
structure IndexConstraint where
  iColumn : Int
  op : Int
  usable : Bool
deriving Repr, DecidableEq

/-- One entry of sqlite3_index_info.aConstraintUsage.  The C field named
omit is called omitFlag here because omit is a Lean keyword. -/
structure ConstraintUsage where
  argvIndex : Int
  omitFlag : Bool
deriving Repr, DecidableEq

/-- The parts of sqlite3_index_info that BestIndex reads and writes. -/
structure IndexInfo where
  aConstraint : List IndexConstraint
  aConstraintUsage : List ConstraintUsage
  idxNum : Int
deriving Repr, DecidableEq

/-- The loop body of VirtualTable::BestIndex over the parallel constraint
and usage arrays, threading idxNum through; translated from
src/virtual_table.cpp. -/
def bestIndexLoop : List IndexConstraint → List ConstraintUsage → Int →
    List ConstraintUsage × Int
  | [], us, n => (us, n)
  | _ :: _, [], n => ([], n)
  | c :: cs, u :: us, n =>
    if c.usable then
      if c.op = kFunctionConstraintVectorSearchKnn ∧ c.iColumn = kColumnIndexVector then
        let r := bestIndexLoop cs us kVector
        (⟨1, true⟩ :: r.fst, r.snd)
      else if c.iColumn = -1 then
        let r := bestIndexLoop cs us kRowid
        (⟨2, true⟩ :: r.fst, r.snd)
      else
        let r := bestIndexLoop cs us n
        (u :: r.fst, r.snd)
    else
      let r := bestIndexLoop cs us n
      (u :: r.fst, r.snd)

/-- VirtualTable::BestIndex, translated from src/virtual_table.cpp:
returns the updated index_info and SQLITE_OK. -/
def VirtualTable.BestIndex (info : IndexInfo) : IndexInfo × Int :=
  let r := bestIndexLoop info.aConstraint info.aConstraintUsage info.idxNum
  ({ info with aConstraintUsage := r.fst, idxNum := r.snd }, SQLITE_OK)

/-- Written from the words of the claim about BestIndex: classify one
constraint, yielding the idxNum value it writes (kVector for a usable knn
function constraint on column 0, kRowid for a usable constraint on column
-1) or none when the constraint is left alone. -/
def recognizeConstraint (c : IndexConstraint) : Option Int :=
  if c.usable then
    if c.op = kFunctionConstraintVectorSearchKnn ∧ c.iColumn = kColumnIndexVector then
      some kVector
    else if c.iColumn = -1 then some kRowid
    else none
  else none

/-- Written from the words of the claim about BestIndex: the usage slot a
recognized constraint receives (argvIndex 1 with omit for the vector
constraint, argvIndex 2 with omit for the rowid constraint). -/
def claimedUsage (v : Int) : ConstraintUsage :=
  if v = kVector then ⟨1, true⟩ else ⟨2, true⟩

/-- Written from the words of the claim about BestIndex: the expected
usage array, each recognized constraint overwritten with its slot and
every other entry unchanged. -/
def claimedUsages (cs : List IndexConstraint) (us : List ConstraintUsage) :
    List ConstraintUsage :=
  List.zipWith (fun c u =>
    match recognizeConstraint c with
    | some v => claimedUsage v
    | none => u) cs us

/-- Written from the words of the claim about BestIndex: the expected
final idxNum, the value written by the last recognized constraint, or the
incoming value when none is recognized. -/
def claimedIdxNum (cs : List IndexConstraint) (n : Int) : Int :=
  ((cs.filterMap recognizeConstraint).getLast?).getD n

/-- The value set through the sqlite3_result family in Column. -/
inductive ColumnValue (D : Type) where
  | real (d : D)
  | blob (bytes : List UInt8)
  | text (s : String)

/-- The result of VirtualTable::Column: the value written to the context,
if any, and the return code. -/
structure ColumnOut (D : Type) where
  value : Option (ColumnValue D)
  rc : Int

/-- The NotFound message of Column. -/
def columnNotFoundMsg (r : Int) : String := "Can\x27t find vector with rowid " ++ toString r

/-- The invalid-column-index message of Column. -/
def invalidColumnMsg (n : Int) : String := "Invalid column index: " ++ toString n

/-- VirtualTable::Column, translated from src/virtual_table.cpp.
getVectorByRowid abstracts VirtualTable::GetVectorByRowid, the lookup into
the ANN index. -/
def VirtualTable.Column {D : Type} (getVectorByRowid : Int → Except String Vector)
    (cursor : Cursor D) (n : Int) : ColumnOut D :=
  if cursor.current_row = cursor.result.length then
    ⟨none, SQLITE_ERROR⟩
  else
    match cursor.result.get? cursor.current_row with
    | none => ⟨none, SQLITE_ERROR⟩
    | some pr =>
      if n = kColumnIndexDistance then ⟨some (.real pr.fst), SQLITE_OK⟩
      else if n = kColumnIndexVector then
        match getVectorByRowid pr.snd with
        | .ok v => ⟨some (.blob v.toBlob), SQLITE_OK⟩
        | .error _ => ⟨some (.text (columnNotFoundMsg pr.snd)), SQLITE_ERROR⟩
      else
        ⟨some (.text (invalidColumnMsg n)), SQLITE_ERROR⟩

/-- A small concrete table state used by the closed witness theorems. -/
def sampleVTab : VTab :=
  { dimension := 2, normalize := false, maxElements := 10,
    index := [], rowids := [], zErrMsg := none }

/-- A table state at full capacity: max_elements = 1 and one stored row. -/
def c1FullVTab : VTab :=
  { dimension := 1, normalize := false, maxElements := 1,
    index := [(1, ⟨[0, 0, 0, 0]⟩)], rowids := [1], zErrMsg := none }

/-- A well-tagged KNN parameter of dimension 2. -/
def goodParam : KnnParam := ⟨⟨[0, 0, 0, 0, 0, 0, 0, 0]⟩, 3⟩

/-- A well-tagged KNN parameter of dimension 1. -/
def badParam : KnnParam := ⟨⟨[0, 0, 0, 0]⟩, 3⟩

/-!  Theorems, one per claim of the specification review. -/

/-- C1: the claim states that after max_elements successful inserts the
next insert with a fresh valid rowid and a valid blob fails with a
CapacityExceeded error surfaced through the vtab error message plus a host
error code.  The code violates this: Update calls index_.addPoint without
a try/catch, so the capacity failure, which the index raises as an
exception, escapes the Update hook (the Except.error outcome below)
instead of being rendered into zErrMsg with SQLITE_ERROR.  The index and
the known-row set are indeed unchanged, since the failure precedes both
mutations.  This theorem evaluates the code at the failing input: a table
with max_elements = 1 holding one row, and an insert of fresh rowid 2 with
a valid one-dimensional blob. -/
theorem update_capacity_exception_escapes :
    c1FullVTab.index.length = c1FullVTab.maxElements
    ∧ VirtualTable.Update (fun v => v) c1FullVTab
        [SqliteValue.null, SqliteValue.integer 2, SqliteValue.blob [0, 0, 0, 0]] =
      Except.error capacityErrorMsg := by
  exact ⟨rfl, rfl⟩

/-- C2 counterexample: a Filter call with idx_num = kVector whose argv[0]
is a plain integer (so the tagged-pointer extraction yields null) sets the
vtab error message to the literal string of the code, which is not the
message the claim states. -/
theorem filter_wrong_tag_message_counterexample :
    (VirtualTable.Filter (fun (_ : Vector) (_ : Nat) => ([] : List (Int × Int)))
        (fun v => v) sampleVTab (Cursor.fresh Int) kVector
        [SqliteValue.integer 42]).vtab.zErrMsg = some knnParamMismatchMsg
    ∧ (knnParamMismatchMsg ==
        "knn_param() must be used as the 2nd argument of knn_search") = false := by
  exact ⟨rfl, by decide⟩

/-- C2 (amended): for every Filter call with idx_num = kVector whose
argv[0] does not carry an opaque pointer tagged vector_search_knn_param,
Filter returns SQLITE_ERROR with the vtab error message
"knn_param() should be used for the 2nd param of knn_search" and leaves
the cursor unchanged, so no rows are produced. -/
theorem filter_wrong_tag_errors {D : Type} (s : Vector → Nat → List (D × Int))
    (f : Vector → Vector) (vtab : VTab) (cursor : Cursor D) (argv : List SqliteValue)
    (hptr : (getArg argv 0).valuePointer kKnnParamType = none) :
    VirtualTable.Filter s f vtab cursor kVector argv =
      ⟨cursor, setZErrMsg vtab knnParamMismatchMsg, SQLITE_ERROR⟩ := by
  simp [VirtualTable.Filter, hptr]

/-- C2 witness: the amended theorem applied at a concrete call whose
argv[0] is the integer 42. -/
theorem filter_wrong_tag_errors_witness :
    VirtualTable.Filter (fun (_ : Vector) (_ : Nat) => ([] : List (Int × Int)))
        (fun v => v) sampleVTab (Cursor.fresh Int) kVector [SqliteValue.integer 42] =
      ⟨Cursor.fresh Int, setZErrMsg sampleVTab knnParamMismatchMsg, SQLITE_ERROR⟩ :=
  filter_wrong_tag_errors _ _ _ _ _ rfl

/-- C3 counterexample: a DELETE-shaped Update call (argc = 1) sets the
message "Operation not supported for now", not "Operation not supported"
as the claim states; and an insert-shaped call with a NULL rowid argument
sets "rowid must be specified during insertion", also different. -/
theorem update_unsupported_message_counterexample :
    VirtualTable.Update (fun v => v) sampleVTab [SqliteValue.integer 5] =
      .ok ⟨setZErrMsg sampleVTab "Operation not supported for now", none, SQLITE_ERROR⟩
    ∧ VirtualTable.Update (fun v => v) sampleVTab
        [SqliteValue.null, SqliteValue.null, SqliteValue.blob [0, 0, 0, 0],
         SqliteValue.null] =
      .ok ⟨setZErrMsg sampleVTab "rowid must be specified during insertion", none,
           SQLITE_ERROR⟩
    ∧ ("Operation not supported for now" == "Operation not supported") = false
    ∧ ("rowid must be specified during insertion" == "Operation not supported") = false := by
  refine ⟨rfl, rfl, by decide, by decide⟩

/-- C3 (amended): every Update call whose signature is not argc > 1 with
argv[0] NULL gets the error message "Operation not supported for now", and
an insert-shaped call whose rowid argument argv[1] is NULL gets
"rowid must be specified during insertion"; in both cases the return code
is SQLITE_ERROR and the index and known-row set are unchanged (the result
state differs from the input state only in zErrMsg). -/
theorem update_unsupported_messages (f : Vector → Vector) (vtab : VTab)
    (argv : List SqliteValue) :
    (¬ (argv.length > 1 ∧ (getArg argv 0).valueType = SqlType.null) →
      VirtualTable.Update f vtab argv =
        .ok ⟨setZErrMsg vtab "Operation not supported for now", none, SQLITE_ERROR⟩)
    ∧ (argv.length > 1 ∧ (getArg argv 0).valueType = SqlType.null ∧
          (getArg argv 1).valueType = SqlType.null →
      VirtualTable.Update f vtab argv =
        .ok ⟨setZErrMsg vtab "rowid must be specified during insertion", none,
             SQLITE_ERROR⟩) := by
  constructor
  · intro h
    unfold VirtualTable.Update
    rw [if_neg h]
  · rintro ⟨h1, h2, h3⟩
    unfold VirtualTable.Update
    rw [if_pos ⟨h1, h2⟩, if_pos h3]

/-- C3 witness: the amended theorem applied at the two concrete calls of
the counterexample. -/
theorem update_unsupported_messages_witness :
    VirtualTable.Update (fun v => v) sampleVTab [SqliteValue.integer 5] =
      .ok ⟨setZErrMsg sampleVTab "Operation not supported for now", none, SQLITE_ERROR⟩
    ∧ VirtualTable.Update (fun v => v) sampleVTab
        [SqliteValue.null, SqliteValue.null, SqliteValue.blob [0, 0, 0, 0],
         SqliteValue.null] =
      .ok ⟨setZErrMsg sampleVTab "rowid must be specified during insertion", none,
           SQLITE_ERROR⟩ :=
  ⟨(update_unsupported_messages _ sampleVTab _).1 (by decide),
   (update_unsupported_messages _ sampleVTab _).2 (by decide)⟩

/-- C7: for every Filter call with an idx_num different from kVector
(including kRowid and the full-scan value), Filter returns SQLITE_ERROR
with the invalid-index-number message and leaves the cursor unchanged, so
the result sequence of a freshly opened cursor stays empty and the query
yields no rows. -/
theorem filter_invalid_idxnum {D : Type} (s : Vector → Nat → List (D × Int))
    (f : Vector → Vector) (vtab : VTab) (cursor : Cursor D) (idxNum : Int)
    (argv : List SqliteValue) (h : idxNum ≠ kVector) :
    VirtualTable.Filter s f vtab cursor idxNum argv =
      ⟨cursor, setZErrMsg vtab (invalidIdxNumMsg idxNum), SQLITE_ERROR⟩ := by
  unfold VirtualTable.Filter
  rw [if_neg h]

/-- C7 witness: the theorem applied at idx_num = kRowid on a fresh
cursor. -/
theorem filter_invalid_idxnum_witness :
    VirtualTable.Filter (fun (_ : Vector) (_ : Nat) => ([] : List (Int × Int)))
        (fun v => v) sampleVTab (Cursor.fresh Int) kRowid [] =
      ⟨Cursor.fresh Int, setZErrMsg sampleVTab (invalidIdxNumMsg kRowid), SQLITE_ERROR⟩ :=
  filter_invalid_idxnum _ _ _ _ _ _ (by decide)

/-- C10: for every Column call on a cursor whose position is at the end of
the result sequence (which includes a freshly opened cursor), Column
returns SQLITE_ERROR without writing any result value, for every requested
column index N and independently of the index lookup function, so no
dispatch on N takes place. -/
theorem column_eof_errors {D : Type} (g : Int → Except String Vector)
    (cursor : Cursor D) (n : Int) (h : cursor.current_row = cursor.result.length) :
    VirtualTable.Column g cursor n = ⟨none, SQLITE_ERROR⟩ := by
  unfold VirtualTable.Column
  rw [if_pos h]

/-- C10 witness: the theorem applied to a freshly opened cursor at the
column index 7. -/
theorem column_eof_errors_witness :
    VirtualTable.Column (fun _ => Except.error "") (Cursor.fresh Int) 7 =
      ⟨none, SQLITE_ERROR⟩ :=
  column_eof_errors _ _ _ rfl

/-- C4: for every Update call with the insert signature, an in-range
integer rowid, and a blob argument whose byte length is not a positive
multiple of 4, Update fails with the decode error surfaced through the
vtab error message and the SQLITE_ERROR return code, and the index
contents and the known-row set are exactly as before the call (the result
state differs from the input only in zErrMsg). -/
theorem update_bad_blob_atomic (f : Vector → Vector) (vtab : VTab)
    (argv : List SqliteValue) (r : Int) (bs : List UInt8)
    (hlen : argv.length > 1)
    (h0 : (getArg argv 0).valueType = SqlType.null)
    (h1 : getArg argv 1 = SqliteValue.integer r)
    (hr : 0 ≤ r ∧ r ≤ int64Max)
    (h2 : getArg argv 2 = SqliteValue.blob bs)
    (hbad : ¬ (bs.length > 0 ∧ bs.length % 4 = 0)) :
    VirtualTable.Update f vtab argv =
      .ok ⟨setZErrMsg vtab ("Failed to perform insertion due to: " ++ vectorDecodeErrorMsg),
           some r, SQLITE_ERROR⟩ := by
  have hr' : 0 ≤ r ∧ r ≤ 9223372036854775807 := by simpa [int64Max] using hr
  have hrange : rowidOutOfRange r = false := by
    simp only [rowidOutOfRange, int64Max, Bool.or_eq_false_iff, decide_eq_false_iff_not,
      not_lt]
    omega
  have hv1 : (getArg argv 1).valueType = SqlType.integer := by rw [h1]; rfl
  have hi1 : (getArg argv 1).valueInt64 = r := by rw [h1]; rfl
  have hv2 : (getArg argv 2).valueType = SqlType.blob := by rw [h2]; rfl
  have hb2 : (getArg argv 2).valueBlob = bs := by rw [h2]; rfl
  simp [VirtualTable.Update, hlen, h0, hv1, hi1, hv2, hb2, hrange,
    Vector.fromBlob, hbad]

/-- C4 witness: the theorem applied to an insert of a 7-byte blob with
rowid 1 into the dimension-2 sample table. -/
theorem update_bad_blob_atomic_witness :
    VirtualTable.Update (fun v => v) sampleVTab
      [SqliteValue.null, SqliteValue.integer 1,
       SqliteValue.blob [0, 0, 0, 0, 0, 0, 0]] =
      .ok ⟨setZErrMsg sampleVTab
             ("Failed to perform insertion due to: " ++ vectorDecodeErrorMsg),
           some 1, SQLITE_ERROR⟩ :=
  update_bad_blob_atomic (fun v => v) sampleVTab
    [SqliteValue.null, SqliteValue.integer 1, SqliteValue.blob [0, 0, 0, 0, 0, 0, 0]]
    1 [0, 0, 0, 0, 0, 0, 0] (by decide) rfl rfl ⟨by decide, by decide⟩ rfl (by decide)

/-- C5: for every Update call with the insert signature and an integer
rowid r in the host int64 range, if r is negative then Update fails via
the explicit bounds check, setting the out-of-range message with
SQLITE_ERROR and leaving the index, the known-row set and the
out-parameter untouched; and if r is non-negative then r passes the check
(it cannot exceed the label-type maximum 2^64 - 1, since the int64 maximum
is smaller), and the subsequent conversion to the label type is a
value-preserving narrowing guarded by that check. -/
theorem update_rowid_bounds (f : Vector → Vector) (vtab : VTab)
    (argv : List SqliteValue) (r : Int)
    (hlen : argv.length > 1)
    (h0 : (getArg argv 0).valueType = SqlType.null)
    (h1 : getArg argv 1 = SqliteValue.integer r)
    (h64 : int64Min ≤ r ∧ r ≤ int64Max) :
    (r < 0 →
      VirtualTable.Update f vtab argv =
        .ok ⟨setZErrMsg vtab (rowidOutOfRangeMsg r), none, SQLITE_ERROR⟩)
    ∧ (0 ≤ r →
      rowidOutOfRange r = false ∧ (labelOfRowid r : Int) = r ∧
        (labelOfRowid r : Int) ≤ labelTypeMax) := by
  have hv1 : (getArg argv 1).valueType = SqlType.integer := by rw [h1]; rfl
  have hi1 : (getArg argv 1).valueInt64 = r := by rw [h1]; rfl
  constructor
  · intro hneg
    have hrange : rowidOutOfRange r = true := by
      simp only [rowidOutOfRange, Bool.or_eq_true, decide_eq_true_eq]
      right
      exact hneg
    simp [VirtualTable.Update, hlen, h0, hv1, hi1, hrange]
  · intro hpos
    have hle : r ≤ 9223372036854775807 := by simpa [int64Max] using h64.2
    refine ⟨?_, ?_, ?_⟩
    · simp only [rowidOutOfRange, int64Max, Bool.or_eq_false_iff,
        decide_eq_false_iff_not, not_lt]
      omega
    · show (r.toNat : Int) = r
      exact Int.toNat_of_nonneg hpos
    · simp only [labelOfRowid, labelTypeMax]
      omega

/-- C5 witness: the theorem applied at rowid -1 (rejected by the bounds
check) and at rowid 5 (which passes it, with the value-preserving
narrowing). -/
theorem update_rowid_bounds_witness :
    VirtualTable.Update (fun v => v) sampleVTab
      [SqliteValue.null, SqliteValue.integer (-1),
       SqliteValue.blob [0, 0, 0, 0, 0, 0, 0, 0]] =
      .ok ⟨setZErrMsg sampleVTab (rowidOutOfRangeMsg (-1)), none, SQLITE_ERROR⟩
    ∧ (rowidOutOfRange 5 = false ∧ (labelOfRowid 5 : Int) = 5 ∧
        (labelOfRowid 5 : Int) ≤ labelTypeMax) :=
  ⟨(update_rowid_bounds (fun v => v) sampleVTab
      [SqliteValue.null, SqliteValue.integer (-1),
       SqliteValue.blob [0, 0, 0, 0, 0, 0, 0, 0]] (-1) (by decide) rfl rfl
      ⟨by decide, by decide⟩).1 (by decide),
   (update_rowid_bounds (fun v => v) sampleVTab
      [SqliteValue.null, SqliteValue.integer 5,
       SqliteValue.blob [0, 0, 0, 0, 0, 0, 0, 0]] 5 (by decide) rfl rfl
      ⟨by decide, by decide⟩).2 (by decide)⟩

/-- C9: for every Update call with the insert signature and an in-range
rowid r, the out-parameter is written with r before the vector blob is
validated, so on each of the three later failure paths (argv[2] not a
blob, blob decode failure, dimension mismatch) the call still returns with
the out-parameter set to r: the error path does not leave the
out-parameter untouched. -/
theorem update_out_rowid_written_on_failure (f : Vector → Vector) (vtab : VTab)
    (argv : List SqliteValue) (r : Int)
    (hlen : argv.length > 1)
    (h0 : (getArg argv 0).valueType = SqlType.null)
    (h1 : getArg argv 1 = SqliteValue.integer r)
    (hr : 0 ≤ r ∧ r ≤ int64Max)
    (hfail : (getArg argv 2).valueType ≠ SqlType.blob
      ∨ (∃ bs, getArg argv 2 = SqliteValue.blob bs ∧
          ¬ (bs.length > 0 ∧ bs.length % 4 = 0))
      ∨ (∃ bs, getArg argv 2 = SqliteValue.blob bs ∧
          (bs.length > 0 ∧ bs.length % 4 = 0) ∧ bs.length / 4 ≠ vtab.dimension)) :
    ∃ m, VirtualTable.Update f vtab argv =
      .ok ⟨setZErrMsg vtab m, some r, SQLITE_ERROR⟩ := by
  have hr' : 0 ≤ r ∧ r ≤ 9223372036854775807 := by simpa [int64Max] using hr
  have hrange : rowidOutOfRange r = false := by
    simp only [rowidOutOfRange, int64Max, Bool.or_eq_false_iff, decide_eq_false_iff_not,
      not_lt]
    omega
  have hv1 : (getArg argv 1).valueType = SqlType.integer := by rw [h1]; rfl
  have hi1 : (getArg argv 1).valueInt64 = r := by rw [h1]; rfl
  rcases hfail with hty | ⟨bs, h2, hbad⟩ | ⟨bs, h2, hgood, hdim⟩
  · refine ⟨"vector must be of type Blob", ?_⟩
    simp [VirtualTable.Update, hlen, h0, hv1, hi1, hrange, hty]
  · have hv2 : (getArg argv 2).valueType = SqlType.blob := by rw [h2]; rfl
    have hb2 : (getArg argv 2).valueBlob = bs := by rw [h2]; rfl
    refine ⟨"Failed to perform insertion due to: " ++ vectorDecodeErrorMsg, ?_⟩
    simp [VirtualTable.Update, hlen, h0, hv1, hi1, hv2, hb2, hrange,
      Vector.fromBlob, hbad]
  · have hv2 : (getArg argv 2).valueType = SqlType.blob := by rw [h2]; rfl
    have hb2 : (getArg argv 2).valueBlob = bs := by rw [h2]; rfl
    refine ⟨updateDimMismatchMsg (bs.length / 4) vtab.dimension, ?_⟩
    simp [VirtualTable.Update, hlen, h0, hv1, hi1, hv2, hb2, hrange,
      Vector.fromBlob, hgood, Vector.dim, hdim]

/-- C9 witness: the theorem applied to an insert with rowid 9 whose third
argument is the integer 3 instead of a blob; the call fails but the
out-parameter has been written with 9. -/
theorem update_out_rowid_written_on_failure_witness :
    ∃ m, VirtualTable.Update (fun v => v) sampleVTab
      [SqliteValue.null, SqliteValue.integer 9, SqliteValue.integer 3] =
      .ok ⟨setZErrMsg sampleVTab m, some 9, SQLITE_ERROR⟩ :=
  update_out_rowid_written_on_failure (fun v => v) sampleVTab
    [SqliteValue.null, SqliteValue.integer 9, SqliteValue.integer 3] 9
    (by decide) rfl rfl ⟨by decide, by decide⟩ (Or.inl (by decide))

/-- C8: for every Filter call with idx_num = kVector carrying a
well-tagged KNN parameter, if the dimension of the query vector differs
from the table dimension then Filter returns SQLITE_ERROR with the
dimension-mismatch message and leaves the cursor unchanged (the right side
does not mention the search function, so no search is performed and no
rows are produced); if the dimensions are equal, Filter stores the
(possibly normalized) query, writes the search result into the cursor and
sets the cursor position to 0 with SQLITE_OK. -/
theorem filter_dimension_check {D : Type} (s : Vector → Nat → List (D × Int))
    (f : Vector → Vector) (vtab : VTab) (cursor : Cursor D) (argv : List SqliteValue)
    (p : KnnParam)
    (hp : (getArg argv 0).valuePointer kKnnParamType = some p) :
    (p.query_vector.dim ≠ vtab.dimension →
      VirtualTable.Filter s f vtab cursor kVector argv =
        ⟨cursor,
         setZErrMsg vtab (filterDimMismatchMsg p.query_vector.dim vtab.dimension),
         SQLITE_ERROR⟩)
    ∧ (p.query_vector.dim = vtab.dimension →
      VirtualTable.Filter s f vtab cursor kVector argv =
        ⟨⟨s (if vtab.normalize then f p.query_vector else p.query_vector) p.k, 0,
          if vtab.normalize then f p.query_vector else p.query_vector⟩,
         vtab, SQLITE_OK⟩) := by
  constructor
  · intro h
    simp [VirtualTable.Filter, hp, h]
  · intro h
    simp [VirtualTable.Filter, hp, h]

/-- C8 witness: the theorem applied to the dimension-2 sample table, once
with a dimension-1 parameter (error, cursor untouched) and once with a
dimension-2 parameter (search runs, position 0). -/
theorem filter_dimension_check_witness :
    VirtualTable.Filter (fun (_ : Vector) (_ : Nat) => ([] : List (Int × Int)))
        (fun v => v) sampleVTab (Cursor.fresh Int) kVector
        [SqliteValue.pointer kKnnParamType badParam] =
      ⟨Cursor.fresh Int, setZErrMsg sampleVTab (filterDimMismatchMsg 1 2), SQLITE_ERROR⟩
    ∧ VirtualTable.Filter (fun (_ : Vector) (_ : Nat) => ([] : List (Int × Int)))
        (fun v => v) sampleVTab (Cursor.fresh Int) kVector
        [SqliteValue.pointer kKnnParamType goodParam] =
      ⟨⟨[], 0, goodParam.query_vector⟩, sampleVTab, SQLITE_OK⟩ :=
  ⟨(filter_dimension_check (fun (_ : Vector) (_ : Nat) => ([] : List (Int × Int)))
      (fun v => v) sampleVTab (Cursor.fresh Int)
      [SqliteValue.pointer kKnnParamType badParam] badParam rfl).1 (by decide),
   (filter_dimension_check (fun (_ : Vector) (_ : Nat) => ([] : List (Int × Int)))
      (fun v => v) sampleVTab (Cursor.fresh Int)
      [SqliteValue.pointer kKnnParamType goodParam] goodParam rfl).2 (by decide)⟩

/-- Helper for the BestIndex claim: prepending a value to a list shifts
the default of getLast?.getD. -/
theorem getLast?_getD_cons (v n : Int) (l : List Int) :
    ((v :: l).getLast?).getD n = (l.getLast?).getD v := by
  induction l generalizing v n with
  | nil => rfl
  | cons a t ih => rw [List.getLast?_cons_cons, ih a n, ih a v]

/-- Helper for the BestIndex claim: the recursion law of claimedIdxNum. -/
theorem claimedIdxNum_cons (c : IndexConstraint) (cs : List IndexConstraint) (n : Int) :
    claimedIdxNum (c :: cs) n =
      match recognizeConstraint c with
      | some v => claimedIdxNum cs v
      | none => claimedIdxNum cs n := by
  cases h : recognizeConstraint c with
  | none => simp [claimedIdxNum, List.filterMap_cons, h]
  | some v => simp [claimedIdxNum, List.filterMap_cons, h, getLast?_getD_cons]

/-- Helper for the BestIndex claim: the loop realizes the claimed usage
array and the claimed last-write-wins idxNum. -/
theorem bestIndexLoop_spec (cs : List IndexConstraint) (us : List ConstraintUsage)
    (n : Int) (h : cs.length = us.length) :
    bestIndexLoop cs us n = (claimedUsages cs us, claimedIdxNum cs n) := by
  induction cs generalizing us n with
  | nil =>
    cases us with
    | nil => simp [bestIndexLoop, claimedUsages, claimedIdxNum]
    | cons u us' => simp at h
  | cons c cs' ih =>
    cases us with
    | nil => simp at h
    | cons u us' =>
      have h' : cs'.length = us'.length := by simpa using h
      by_cases hu : c.usable
      · by_cases hk : c.op = kFunctionConstraintVectorSearchKnn ∧
            c.iColumn = kColumnIndexVector
        · simp [bestIndexLoop, hu, hk, ih us' kVector h', claimedUsages,
            recognizeConstraint, claimedIdxNum_cons, claimedUsage]
        · by_cases hr : c.iColumn = -1
          · simp [bestIndexLoop, hu, hk, hr, ih us' 2 h', claimedUsages,
              recognizeConstraint, claimedIdxNum_cons, claimedUsage, kVector, kRowid,
              kColumnIndexVector]
          · simp [bestIndexLoop, hu, hk, hr, ih us' n h', claimedUsages,
              recognizeConstraint, claimedIdxNum_cons]
      · simp [bestIndexLoop, hu, ih us' n h', claimedUsages, recognizeConstraint,
          claimedIdxNum_cons]

/-- C6: for every constraint list handed to BestIndex (with the usage
array of matching length), each usable knn function constraint on column 0
receives argvIndex 1 with omit, each usable constraint on column -1
receives argvIndex 2 with omit, every other constraint leaves its usage
entry unchanged, the idxNum written last prevails (claimedUsages,
claimedUsage, recognizeConstraint and claimedIdxNum are written from the
words of the claim), and BestIndex returns SQLITE_OK. -/
theorem bestindex_constraints (info : IndexInfo)
    (h : info.aConstraint.length = info.aConstraintUsage.length) :
    VirtualTable.BestIndex info =
      ({ info with
          aConstraintUsage := claimedUsages info.aConstraint info.aConstraintUsage,
          idxNum := claimedIdxNum info.aConstraint info.idxNum }, SQLITE_OK) := by
  unfold VirtualTable.BestIndex
  rw [bestIndexLoop_spec _ _ _ h]

/-- C6 witness: the theorem applied to a list with one usable knn
constraint on column 0, one usable rowid constraint, and one unrecognized
constraint: the first two usage slots are overwritten, the third is kept,
and the rowid write of idxNum, being last, prevails. -/
theorem bestindex_constraints_witness :
    VirtualTable.BestIndex
      ⟨[⟨0, 150, true⟩, ⟨-1, 2, true⟩, ⟨5, 2, true⟩],
       [⟨0, false⟩, ⟨0, false⟩, ⟨0, false⟩], 0⟩ =
      (⟨[⟨0, 150, true⟩, ⟨-1, 2, true⟩, ⟨5, 2, true⟩],
        [⟨1, true⟩, ⟨2, true⟩, ⟨0, false⟩], 2⟩, SQLITE_OK) :=
  bestindex_constraints _ rfl

end SqliteVector
